import Mathlib

/-!
Verification of the core logic of `password_generator.py`
(class `PasswordGenerator`, Stacy Ebot's secure password generator).

The Python module builds a character pool from enabled character classes,
samples characters from the pool to form a password, and scores a
password's strength heuristically.  We embed that core shallowly:

* passwords are `List Char` (Python strings are character sequences);
* the ASCII character classes of the Python `string` module are concrete
  `List Char` constants built from their ASCII code ranges;
* the random source (`random.choice`) is modelled by an oracle
  `choice : Nat → Nat`; draw `i` selects pool index `choice i % pool.length`,
  so every possible sequence of draws is covered by quantifying over the
  oracle;
* fallible operations return `Except String _`, the `String` being the
  message of the `ValueError` the Python code raises;
* Python's `str.islower` / `str.isupper` / `str.isdigit` are Unicode-aware;
  we use Lean's ASCII `Char.isLower` / `Char.isUpper` / `Char.isDigit`,
  which agree with them on the ASCII alphabet the generator draws from.
-/

namespace PasswordGenerator

/-- `string.ascii_lowercase`: the 26 ASCII lowercase letters, codes 97–122. -/
def lowercase : List Char := (List.range 26).map (fun i => Char.ofNat (97 + i))

/-- `string.ascii_uppercase`: the 26 ASCII uppercase letters, codes 65–90. -/
def uppercase : List Char := (List.range 26).map (fun i => Char.ofNat (65 + i))

/-- `string.digits`: the 10 ASCII digits, codes 48–57. -/
def digits : List Char := (List.range 10).map (fun i => Char.ofNat (48 + i))

/-- `string.punctuation`: the 32 ASCII punctuation characters, i.e. the
printable non-alphanumeric ASCII codes 33–47, 58–64, 91–96 and 123–126. -/
def special : List Char :=
  (List.range 15).map (fun i => Char.ofNat (33 + i)) ++
  (List.range 7).map (fun i => Char.ofNat (58 + i)) ++
  (List.range 6).map (fun i => Char.ofNat (91 + i)) ++
  (List.range 4).map (fun i => Char.ofNat (123 + i))

/-- The character pool assembled by `generate_password`: lowercase always,
then `characters += self.uppercase` / `self.digits` / `self.special` for each
enabled option, in the source's order. -/
def charPool (use_uppercase use_digits use_special : Bool) : List Char :=
  lowercase ++
  (if use_uppercase then uppercase else []) ++
  (if use_digits then digits else []) ++
  (if use_special then special else [])

/-- The sampling loop of `generate_password`:
`''.join(random.choice(characters) for _ in range(length))`, with the
random draws supplied by the oracle `choice`.  Draw `i` picks the pool
element at index `choice i % pool.length` (the pool is never empty, so the
`getD` default is never used). -/
def genChars (choice : Nat → Nat) (length : Int)
    (use_uppercase use_digits use_special : Bool) : List Char :=
  let characters := charPool use_uppercase use_digits use_special
  (List.range length.toNat).map
    (fun i => characters.getD (choice i % characters.length) 'a')

/-- `PasswordGenerator.generate_password`: raises
`ValueError("Password length must be at least 4 characters")` when
`length < 4`, otherwise returns `length` characters drawn from the pool. -/
def generate_password (choice : Nat → Nat) (length : Int)
    (use_uppercase use_digits use_special : Bool) : Except String (List Char) :=
  if length < 4 then
    .error "Password length must be at least 4 characters"
  else
    .ok (genChars choice length use_uppercase use_digits use_special)

/-- Left-to-right effectful map, the semantics of the Python list
comprehension in `generate_multiple`: the first raising call aborts the
whole comprehension with its error. -/
def mapComprehension (f : Nat → Except String (List Char)) :
    List Nat → Except String (List (List Char))
  | [] => .ok []
  | i :: is =>
    match f i with
    | .error e => .error e
    | .ok p =>
      match mapComprehension f is with
      | .error e => .error e
      | .ok ps => .ok (p :: ps)

/-- `PasswordGenerator.generate_multiple`:
`[self.generate_password(**kwargs) for _ in range(count)]`.  Each iteration
is an independent call to `generate_password`, so each iteration `i` gets
its own stream of random draws `choices i`.  A negative `count` makes
`range(count)` empty, hence `Int.toNat`. -/
def generate_multiple (choices : Nat → Nat → Nat) (count : Int) (length : Int)
    (use_uppercase use_digits use_special : Bool) :
    Except String (List (List Char)) :=
  mapComprehension
    (fun i => generate_password (choices i) length use_uppercase use_digits use_special)
    (List.range count.toNat)

/-- The running `score` accumulated by `calculate_strength` before the final
clamp: the length tier (25 / 15 / 5) plus 15 for a lowercase letter, 20 for
an uppercase letter, 20 for a digit and 20 for a punctuation character. -/
def raw_strength (password : List Char) : Int :=
  (if password.length ≥ 12 then 25 else if password.length ≥ 8 then 15 else (5 : Int)) +
  (if password.any (fun c => c.isLower) then 15 else 0) +
  (if password.any (fun c => c.isUpper) then 20 else 0) +
  (if password.any (fun c => c.isDigit) then 20 else 0) +
  (if password.any (fun c => special.contains c) then 20 else 0)

/-- `PasswordGenerator.calculate_strength`: the accumulated score followed by
`return min(score, 100)`. -/
def calculate_strength (password : List Char) : Int :=
  min (raw_strength password) 100

/-- `PasswordGenerator.get_strength_label`: descending threshold chain,
first match wins. -/
def get_strength_label (score : Int) : String :=
  if score ≥ 80 then "Strong"
  else if score ≥ 60 then "Moderate"
  else if score ≥ 40 then "Weak"
  else "Very Weak"

/-- Position of a label in the qualitative ordering
Very Weak < Weak < Moderate < Strong. -/
def labelRank (label : String) : Nat :=
  if label = "Very Weak" then 0
  else if label = "Weak" then 1
  else if label = "Moderate" then 2
  else 3

/-- The strength score exactly as the specification words it: a sum of a
length contribution and four presence bonuses, clamped by `min` to 100.
Presence is phrased with existentials over the characters of the password,
to be compared with the source's accumulating formulation. -/
def strength_spec (p : List Char) : Int :=
  min ((if p.length ≥ 12 then 25 else if p.length ≥ 8 then 15 else (5 : Int)) +
       (if ∃ c ∈ p, c.isLower = true then 15 else 0) +
       (if ∃ c ∈ p, c.isUpper = true then 20 else 0) +
       (if ∃ c ∈ p, c.isDigit = true then 20 else 0) +
       (if ∃ c ∈ p, c ∈ special then 20 else 0)) 100

/-! ### Helper lemmas -/

theorem charPool_length_pos (u d s : Bool) : 0 < (charPool u d s).length := by
  cases u <;> cases d <;> cases s <;> decide

theorem charPool_classes (u d s : Bool) :
    ∀ c ∈ charPool u d s,
      c.isLower = true ∨ (u = true ∧ c.isUpper = true) ∨
      (d = true ∧ c.isDigit = true) ∨ (s = true ∧ c ∈ special) := by
  cases u <;> cases d <;> cases s <;> decide

theorem charPool_no_upper (d s : Bool) :
    ∀ c ∈ charPool false d s, c.isUpper = false := by
  cases d <;> cases s <;> decide

theorem charPool_no_digit (u s : Bool) :
    ∀ c ∈ charPool u false s, c.isDigit = false := by
  cases u <;> cases s <;> decide

theorem charPool_no_special (u d : Bool) :
    ∀ c ∈ charPool u d false, c ∉ special := by
  cases u <;> cases d <;> decide

theorem getD_mem (l : List Char) (n : Nat) (d : Char) (h : n < l.length) :
    l.getD n d ∈ l := by
  rw [List.getD_eq_getElem l d h]
  exact List.getElem_mem h

theorem genChars_length (choice : Nat → Nat) (length : Int) (u d s : Bool) :
    (genChars choice length u d s).length = length.toNat := by
  simp [genChars]

theorem genChars_mem_pool (choice : Nat → Nat) (length : Int) (u d s : Bool) :
    ∀ c ∈ genChars choice length u d s, c ∈ charPool u d s := by
  intro c hc
  simp only [genChars, List.mem_map, List.mem_range] at hc
  obtain ⟨i, _, rfl⟩ := hc
  exact getD_mem _ _ _ (Nat.mod_lt _ (charPool_length_pos u d s))

theorem mapComprehension_ok (f : Nat → Except String (List Char))
    (g : Nat → List Char) (is : List Nat)
    (h : ∀ i ∈ is, f i = .ok (g i)) :
    mapComprehension f is = .ok (is.map g) := by
  induction is with
  | nil => rfl
  | cons i is ih =>
    simp only [mapComprehension, h i (List.mem_cons_self i is),
      ih (fun j hj => h j (List.mem_cons_of_mem i hj)), List.map_cons]

theorem mapComprehension_error_head (f : Nat → Except String (List Char))
    (e : String) (i : Nat) (is : List Nat) (h : f i = .error e) :
    mapComprehension f (i :: is) = .error e := by
  simp only [mapComprehension, h]

theorem rank_label_eq (s : Int) :
    labelRank (get_strength_label s) =
      if s ≥ 80 then 3 else if s ≥ 60 then 2 else if s ≥ 40 then 1 else 0 := by
  unfold get_strength_label
  split_ifs <;> first | decide | omega

/-! ### Claim theorems -/

/-- C1: for every string `p`, `calculate_strength p` equals the sum described
by the spec — the length tier (25 / 15 / 5) plus 15 for a lowercase letter,
20 each for an uppercase letter, a digit and a special character, clamped by
`min` to 100. -/
theorem C1_strength_formula (p : List Char) :
    calculate_strength p = strength_spec p := by
  unfold calculate_strength raw_strength strength_spec
  simp [List.any_eq_true, List.contains, List.elem_iff]

/-- C2: `get_strength_label` is the descending threshold chain with first
match winning — ≥80 Strong, ≥60 Moderate, ≥40 Weak, else Very Weak — with the
spec's sample points and the exact boundaries at 80, 60 and 40. -/
theorem C2_label_thresholds :
    (∀ s : Int, 80 ≤ s → get_strength_label s = "Strong") ∧
    (∀ s : Int, 60 ≤ s → s < 80 → get_strength_label s = "Moderate") ∧
    (∀ s : Int, 40 ≤ s → s < 60 → get_strength_label s = "Weak") ∧
    (∀ s : Int, s < 40 → get_strength_label s = "Very Weak") ∧
    get_strength_label 90 = "Strong" ∧ get_strength_label 70 = "Moderate" ∧
    get_strength_label 50 = "Weak" ∧ get_strength_label 30 = "Very Weak" ∧
    get_strength_label 80 = "Strong" ∧ get_strength_label 79 = "Moderate" ∧
    get_strength_label 60 = "Moderate" ∧ get_strength_label 59 = "Weak" ∧
    get_strength_label 40 = "Weak" ∧ get_strength_label 39 = "Very Weak" := by
  refine ⟨?_, ?_, ?_, ?_, by decide, by decide, by decide, by decide,
    by decide, by decide, by decide, by decide, by decide, by decide⟩ <;>
    (intro s; unfold get_strength_label; intros; split_ifs <;> first | rfl | omega)

theorem C2_label_thresholds_witness :
    get_strength_label 85 = "Strong" ∧ get_strength_label 65 = "Moderate" ∧
    get_strength_label 45 = "Weak" ∧ get_strength_label 5 = "Very Weak" :=
  ⟨C2_label_thresholds.1 85 (by decide),
   C2_label_thresholds.2.1 65 (by decide) (by decide),
   C2_label_thresholds.2.2.1 45 (by decide) (by decide),
   C2_label_thresholds.2.2.2.1 5 (by decide)⟩

/-- C6: the score is an integer in [0, 100]; the raw (unclamped) sum never
exceeds 100, so the final `min` clamp never changes the value. -/
theorem C6_score_bounds (p : List Char) :
    0 ≤ calculate_strength p ∧ calculate_strength p ≤ 100 ∧
    raw_strength p ≤ 100 ∧ calculate_strength p = raw_strength p := by
  unfold calculate_strength raw_strength
  split_ifs <;> omega

/-- C7: scoring and labeling are total — `get_strength_label` applied to any
score yields one of the four labels, and every score below 40 (including
negative scores) maps to "Very Weak". -/
theorem C7_totality (p : List Char) (s : Int) (hs : s < 40) :
    get_strength_label (calculate_strength p) ∈
      ["Very Weak", "Weak", "Moderate", "Strong"] ∧
    get_strength_label s = "Very Weak" := by
  constructor
  · unfold get_strength_label
    split_ifs <;> simp
  · unfold get_strength_label
    split_ifs <;> first | rfl | omega

theorem C7_totality_witness :
    get_strength_label (calculate_strength []) ∈
      ["Very Weak", "Weak", "Moderate", "Strong"] ∧
    get_strength_label (-7) = "Very Weak" :=
  C7_totality [] (-7) (by decide)

/-- C8: every score is at least 5 — the length tier always contributes at
least 5, even for the empty string, so scores 0–4 are unreachable. -/
theorem C8_score_at_least_five (p : List Char) : 5 ≤ calculate_strength p := by
  unfold calculate_strength raw_strength
  split_ifs <;> omega

/-- C10: the label is monotone in the score under the ordering
Very Weak < Weak < Moderate < Strong. -/
theorem C10_label_monotone (s1 s2 : Int) (h : s1 ≤ s2) :
    labelRank (get_strength_label s1) ≤ labelRank (get_strength_label s2) := by
  rw [rank_label_eq, rank_label_eq]
  split_ifs <;> omega

theorem C10_label_monotone_witness :
    labelRank (get_strength_label 45) ≤ labelRank (get_strength_label 85) :=
  C10_label_monotone 45 85 (by decide)

/-- C3: for every length ≥ 4 and every option combination, generation
succeeds with a string of exactly `length` characters, each belonging to the
assembled pool and to an enabled class (lowercase always enabled); no
character of a disabled class ever appears. -/
theorem C3_generate_length_and_pool (choice : Nat → Nat) (length : Int)
    (u d s : Bool) (h : 4 ≤ length) :
    ∃ pw, generate_password choice length u d s = .ok pw ∧
      pw.length = length.toNat ∧
      (∀ c ∈ pw, c ∈ charPool u d s) ∧
      (∀ c ∈ pw, c.isLower = true ∨ (u = true ∧ c.isUpper = true) ∨
        (d = true ∧ c.isDigit = true) ∨ (s = true ∧ c ∈ special)) ∧
      (u = false → ∀ c ∈ pw, c.isUpper = false) ∧
      (d = false → ∀ c ∈ pw, c.isDigit = false) ∧
      (s = false → ∀ c ∈ pw, c ∉ special) := by
  refine ⟨genChars choice length u d s, ?_, genChars_length choice length u d s,
    genChars_mem_pool choice length u d s, ?_, ?_, ?_, ?_⟩
  · unfold generate_password
    rw [if_neg (by omega)]
  · exact fun c hc =>
      charPool_classes u d s c (genChars_mem_pool choice length u d s c hc)
  · rintro rfl c hc
    exact charPool_no_upper d s c
      (genChars_mem_pool choice length false d s c hc)
  · rintro rfl c hc
    exact charPool_no_digit u s c
      (genChars_mem_pool choice length u false s c hc)
  · rintro rfl c hc
    exact charPool_no_special u d c
      (genChars_mem_pool choice length u d false c hc)

theorem C3_generate_length_and_pool_witness :
    ∃ pw, generate_password (fun i => i) 6 true true false = .ok pw ∧
      pw.length = (6 : Int).toNat ∧
      (∀ c ∈ pw, c ∈ charPool true true false) ∧
      (∀ c ∈ pw, c.isLower = true ∨ (true = true ∧ c.isUpper = true) ∨
        (true = true ∧ c.isDigit = true) ∨ (false = true ∧ c ∈ special)) ∧
      (true = false → ∀ c ∈ pw, c.isUpper = false) ∧
      (true = false → ∀ c ∈ pw, c.isDigit = false) ∧
      (false = false → ∀ c ∈ pw, c ∉ special) :=
  C3_generate_length_and_pool (fun i => i) 6 true true false (by decide)

/-- C4: generation fails, with the `ValueError` message of the source, if and
only if the requested length is strictly below 4; every length ≥ 4 succeeds
and no other input is rejected. -/
theorem C4_invalid_length_iff (choice : Nat → Nat) (length : Int)
    (u d s : Bool) :
    ((∃ e, generate_password choice length u d s = .error e) ↔ length < 4) ∧
    (length < 4 → generate_password choice length u d s =
      .error "Password length must be at least 4 characters") ∧
    (4 ≤ length → ∃ pw, generate_password choice length u d s = .ok pw) := by
  unfold generate_password
  split_ifs with hlen
  · exact ⟨⟨fun _ => hlen, fun _ => ⟨_, rfl⟩⟩, fun _ => rfl, fun h => by omega⟩
  · exact ⟨⟨fun ⟨e, he⟩ => by simp at he, fun h => absurd h hlen⟩,
      fun h => absurd h hlen, fun _ => ⟨_, rfl⟩⟩

/-- C5: for every positive count, the batch operation returns exactly `count`
passwords, each the result of an independent `generate_password` call with
the same options (iteration `i` consuming its own random stream `choices i`);
it propagates `InvalidLength` exactly when the per-item call raises it, and
never validates `count` itself. -/
theorem C5_generate_multiple (choices : Nat → Nat → Nat) (count length : Int)
    (u d s : Bool) :
    (0 < count → 4 ≤ length →
      ∃ l, generate_multiple choices count length u d s = .ok l ∧
        (l.length : Int) = count ∧
        l = (List.range count.toNat).map
              (fun i => genChars (choices i) length u d s) ∧
        ∀ i ∈ List.range count.toNat,
          generate_password (choices i) length u d s =
            .ok (genChars (choices i) length u d s)) ∧
    (0 < count → length < 4 →
      generate_multiple choices count length u d s =
        .error "Password length must be at least 4 characters") := by
  constructor
  · intro hc hl
    have hgen : ∀ i ∈ List.range count.toNat,
        generate_password (choices i) length u d s =
          .ok (genChars (choices i) length u d s) := by
      intro i _
      unfold generate_password
      rw [if_neg (by omega)]
    refine ⟨_, mapComprehension_ok _ _ _ hgen, ?_, rfl, hgen⟩
    rw [List.length_map, List.length_range, Int.toNat_of_nonneg (by omega)]
  · intro hc hl
    obtain ⟨k, hk⟩ : ∃ k, count.toNat = k + 1 :=
      ⟨count.toNat - 1, by omega⟩
    unfold generate_multiple
    rw [hk, List.range_succ_eq_map]
    exact mapComprehension_error_head _ _ _ _ (by
      unfold generate_password
      rw [if_pos hl])

theorem C5_generate_multiple_witness :
    (∃ l, generate_multiple (fun _ i => i) 2 5 true false false = .ok l ∧
        (l.length : Int) = 2 ∧
        l = (List.range (2 : Int).toNat).map
              (fun i => genChars ((fun _ i => i) i) 5 true false false) ∧
        ∀ i ∈ List.range (2 : Int).toNat,
          generate_password ((fun _ i => i) i) 5 true false false =
            .ok (genChars ((fun _ i => i) i) 5 true false false)) ∧
    generate_multiple (fun _ i => i) 1 3 true false false =
      .error "Password length must be at least 4 characters" :=
  ⟨(C5_generate_multiple (fun _ i => i) 2 5 true false false).1
      (by decide) (by decide),
   (C5_generate_multiple (fun _ i => i) 1 3 true false false).2
      (by decide) (by decide)⟩

/-- C9: a batch request with count ≤ 0 raises nothing and returns the empty
list, for any options — even an invalid length — since the per-item
generator is never invoked. -/
theorem C9_nonpositive_count (choices : Nat → Nat → Nat) (count length : Int)
    (u d s : Bool) (h : count ≤ 0) :
    generate_multiple choices count length u d s = .ok [] := by
  unfold generate_multiple
  rw [Int.toNat_eq_zero.mpr h]
  rfl

theorem C9_nonpositive_count_witness :
    generate_multiple (fun _ i => i) (-2) 1 true true true = .ok [] :=
  C9_nonpositive_count (fun _ i => i) (-2) 1 true true true (by decide)

end PasswordGenerator
